import Mathlib

/-!
Verification development for a custom C++ exception propagation mechanism
(src/main.cpp) layered on the Itanium unwinding runtime (libunwind +
libcxxabi internals).

The embedding models:
- the `_Unwind_Exception` header, `base_exception` and `wrapped_exception<T>`
  envelope structures;
- the thread-local `__cxa_eh_globals` bookkeeping handle (only its first
  field, `caughtExceptions`, is used by the code);
- a heap of exception objects keyed by address (an `Int`, with `0` playing
  the role of the null pointer), holding either envelopes produced by
  `my_throw` or foreign exception records;
- `my_throw`, `my_catch` and the cleanup lambda installed by `my_throw`,
  translated statement by statement from src/main.cpp.

Machine pointers are modelled as `Int` addresses; the 64-bit
`exception_class` values are `Nat`s below `2^64` (the only operation on
them is equality comparison, so no overflow arises).
-/

namespace UnwindCpp

/-- src/main.cpp:28 — `static const uint64_t my_exception_class =
0x0123456789ABCDEFull;` the fixed 64-bit class identifier of this system.
The value is below `2^64`, so it is its own `uint64_t` representation. -/
def my_exception_class : Nat := 0x0123456789ABCDEF

/-- Model of the Itanium `_Unwind_Exception` header (declared in unwind.h,
external to the repository): a 64-bit `exception_class`, the
`exception_cleanup` function pointer (modelled as a `Bool` recording
whether `my_throw`'s cleanup lambda has been installed; `false` is the
null pointer produced by zero-initialization), and two private
pointer-sized fields used by the unwinder. -/
structure UnwindException where
  exception_class : Nat
  exception_cleanup_installed : Bool
  private_1 : Nat
  private_2 : Nat
deriving DecidableEq, Repr

/-- src/main.cpp:31-43 — `struct base_exception`: the unwinding header
(first data member, so at byte offset 0) followed by a pointer to the
`std::type_info` of the wrapped type.  The `type_info` pointer is
modelled as the `Nat` address of the type_info object. -/
structure base_exception where
  header : UnwindException
  ty : Nat
deriving DecidableEq, Repr

/-- src/main.cpp:46-57 — `template<class T> struct wrapped_exception :
base_exception`: the base subobject (non-virtual single inheritance, so
at byte offset 0) followed by the payload `body : T`. -/
structure wrapped_exception (T : Type) where
  base : base_exception
  body : T
deriving DecidableEq, Repr

/-- Byte offset of the `header` field inside `base_exception`: it is the
first data member, so the Itanium ABI places it at offset 0. -/
def base_exception.header_offset : Nat := 0

/-- Byte offset of the `base_exception` subobject inside
`wrapped_exception<T>`: it is the only, non-virtual base class, so the
Itanium ABI places it at offset 0. -/
def wrapped_exception.base_offset : Nat := 0

/-- Address of the embedded `_Unwind_Exception` header of an envelope
allocated at address `envAddr`, per the field offsets above. -/
def wrapped_exception.header_addr (envAddr : Int) : Int :=
  envAddr + (wrapped_exception.base_offset : Int) + (base_exception.header_offset : Int)

/-- An object living in the modelled heap: either an envelope of this
system (its header at the object's address, per the layout above), or a
foreign exception record owned by some other subsystem, of which the
code only ever reads the embedded unwind header. -/
inductive MemObject (T : Type) where
  | env (e : wrapped_exception T)
  | foreign (hdr : UnwindException)
deriving DecidableEq, Repr

/-- The unwind header found at the address of a heap object: for an
envelope this is its `base.header` (header-first layout); for a foreign
record, the foreign header itself. -/
def MemObject.read_header {T : Type} : MemObject T → UnwindException
  | .env e => e.base.header
  | .foreign hdr => hdr

/-- The heap: an association list from addresses to exception objects. -/
abbrev Heap (T : Type) : Type := List (Int × MemObject T)

/-- Look up the object allocated at address `a` (first match). -/
def heapLookup {T : Type} (a : Int) : Heap T → Option (MemObject T)
  | [] => none
  | (b, o) :: t => if b = a then some o else heapLookup a t

/-- Deallocate (as C++ `delete` does) the object at address `a`. -/
def heapErase {T : Type} (a : Int) : Heap T → Heap T
  | [] => []
  | (b, o) :: t => if b = a then heapErase a t else (b, o) :: heapErase a t

/-- Model of `__cxa_eh_globals`: the code depends on exactly one field,
the first member `caughtExceptions`, a pointer (here: an `Int` address,
`0` for null) to the `__cxa_exception` record of the exception currently
being handled. -/
structure EHGlobals where
  caughtExceptions : Int
deriving DecidableEq, Repr

/-- src/main.cpp:122 — `static const size_t sizeof_libcxx_cxa_exception =
0x80;` the ABI-dependent size of libcxxabi's `__cxa_exception` record,
supplied as a configuration constant. -/
def sizeof_libcxx_cxa_exception : Nat := 0x80

/-- `sizeof(_Unwind_Exception)` on an LP64 Itanium target: four 8-byte
fields (class, cleanup pointer, two private words), `0x20` bytes. -/
def sizeof_Unwind_Exception : Nat := 0x20

/-- src/main.cpp:121-126 — the address computation performed by
`my_catch`: first the end of the `__cxa_exception` record
(`caughtExceptions + sizeof_libcxx_cxa_exception`), then back one
`_Unwind_Exception` to the start of the header. -/
def my_catch_header_addr (caughtExceptions : Int) : Int :=
  (caughtExceptions + (sizeof_libcxx_cxa_exception : Int)) - (sizeof_Unwind_Exception : Int)

/-- Modelled from the documented external contract (src/main.cpp:106-119
and spec section 6): when the unwinder transfers control into a
`catch (...)` handler, libcxxabi's `__cxa_begin_catch` stores into
`globals->caughtExceptions` the address of the `__cxa_exception` record
whose LAST field is the unwind header, adjusting foreign exceptions the
same way as native ones; that is, `caughtExceptions = headerAddr +
sizeof(_Unwind_Exception) - sizeof(__cxa_exception)`. -/
def runtime_begin_catch (headerAddr : Int) : EHGlobals :=
  { caughtExceptions :=
      headerAddr + (sizeof_Unwind_Exception : Int) - (sizeof_libcxx_cxa_exception : Int) }

/-- The state `my_catch` runs in: the thread's globals handle (`none`
models an uninitialized thread, where `__cxa_get_globals_fast` returns
null), the heap, and the caller's two out-parameter slots `*ty` and
`*caught` (whatever values they hold before the call). -/
structure MachineState (T : Type) where
  globals : Option EHGlobals
  heap : Heap T
  out_ty : Nat
  out_caught : Int
deriving DecidableEq, Repr

/-- Result of a `my_catch` call: an `assert` firing (fatal, the process
aborts), a memory access outside the model (the computed address holds
no object of the model, or holds a foreign record that spoofs this
system's class identifier, so the code would read fields that do not
exist), or a normal boolean return. -/
inductive CatchResult where
  | assert_failed (msg : String)
  | undef
  | ok (found : Bool)
deriving DecidableEq, Repr

/-- src/main.cpp:99-142 — `bool my_catch(const std::type_info** ty,
base_exception** caught)`, translated statement by statement:
fetch the globals and `assert` them; read the first member
`caughtExceptions` and `assert` it non-null; compute the header address
(`my_catch_header_addr`); compare `header->exception_class` against
`my_exception_class`, returning `false` on mismatch; otherwise cast the
header pointer to `base_exception*` (sound by the header-first layout),
write the two out-parameters and return `true`. -/
def my_catch {T : Type} (s : MachineState T) : MachineState T × CatchResult :=
  match s.globals with
  | none => (s, .assert_failed "Must call from the catch block (get_globals failed)")
  | some globals =>
    if globals.caughtExceptions = 0 then
      (s, .assert_failed "Must call from the catch block (no caught exception)")
    else
      match heapLookup (my_catch_header_addr globals.caughtExceptions) s.heap with
      | none => (s, .undef)
      | some obj =>
        if obj.read_header.exception_class ≠ my_exception_class then
          (s, .ok false)
        else
          match obj with
          | .env e =>
            ({ s with
                out_ty := e.base.ty,
                out_caught := my_catch_header_addr globals.caughtExceptions },
             .ok true)
          | .foreign _ => (s, .undef)

/-- Rendering of a pointer for the `printf("%p", ...)` diagnostics. -/
def ptrString (a : Int) : String := toString a

/-- src/main.cpp:72-83 — the cleanup lambda installed by `my_throw` on
`header.exception_cleanup`, invoked by the runtime when a catch scope
ends without rethrow.  It ignores `reason` (`(void)reason;`), logs
`"Deleting %p"`, reinterprets the header pointer as the envelope pointer
(sound by the header-first layout) and `delete`s the envelope.  Returns
the heap after deallocation together with the log it prints. -/
def exception_cleanup (T : Type) (_reason : Int) (excAddr : Int) (heap : Heap T) :
    Heap T × List String :=
  (heapErase excAddr heap, ["Deleting " ++ ptrString excAddr])

/-- src/main.cpp:50-53 and 33-35 — `new wrapped_exception<T>(args...)`:
the `base_exception` constructor zero-initializes the header (`header{}`)
and then sets `exception_class`; `ty` records `&typeid(T)` (here the
`tag` argument); the payload is constructed in place from the forwarded
arguments (here, the already-evaluated `body`). -/
def wrapped_exception.mk_cpp (T : Type) (tag : Nat) (body : T) : wrapped_exception T :=
  { base :=
      { header :=
          { exception_class := my_exception_class
            exception_cleanup_installed := false
            private_1 := 0
            private_2 := 0 }
        ty := tag }
    body := body }

/-- src/main.cpp:72 — `wrapped->header.exception_cleanup = ...;`:
install the cleanup lambda on the envelope's header. -/
def install_cleanup {T : Type} (w : wrapped_exception T) : wrapped_exception T :=
  { w with base :=
      { w.base with header :=
          { w.base.header with exception_cleanup_installed := true } } }

/-- Outcome of a `my_throw` call: the `assert` fired (fatal); the raise
primitive succeeded and control was transferred to a handler, leaving the
envelope in the heap and passing the unwinder the header's address; the
raise primitive returned a failure code and `std::terminate()` ended the
process after a diagnostic; or `my_throw` returned normally to its
caller (no path of the code produces this). -/
inductive ThrowOutcome (T : Type) where
  | assert_failed (msg : String)
  | transferred (heap : Heap T) (headerAddr : Int) (log : List String)
  | terminated (log : List String)
  | returned
deriving DecidableEq, Repr

/-- src/main.cpp:61-94 — `my_throw<T>(args...)`, translated statement by
statement.  `globalsInitialized` models whether `__cxa_get_globals_fast()`
returns non-null for this thread; `addr` is the address `new` picks for
the envelope; `raise_returns` models `_Unwind_RaiseException`'s behavior:
`none` when it propagates and never returns, `some reason` when it
returns the failure code `reason`. -/
def my_throw (T : Type) (tag : Nat) (body : T) (globalsInitialized : Bool)
    (addr : Int) (heap : Heap T) (raise_returns : Option Int) : ThrowOutcome T :=
  if ¬ globalsInitialized then
    .assert_failed "Initialize cxa globals before throwing."
  else
    let wrapped := install_cleanup (wrapped_exception.mk_cpp T tag body)
    let heap2 : Heap T := (addr, .env wrapped) :: heap
    let log0 := ["Throwing " ++ ptrString addr]
    match raise_returns with
    | none => .transferred heap2 (wrapped_exception.header_addr addr) log0
    | some reason =>
      .terminated (log0 ++ ["Failed to throw (reason = " ++ toString reason ++ ")"])

/-- src/main.cpp:145-151 — the demonstration payload `test_exception`,
carrying a message (`const char* what`, modelled as a `String`). -/
structure test_exception where
  what : String
deriving DecidableEq, Repr

/-- src/main.cpp:150 — `explicit test_exception(const char* msg)` sets
`what` to `msg`. -/
def test_exception.mk_cpp (msg : String) : test_exception := { what := msg }

/-- Modelled from the spec: the universe of declared payload types of
the program, for the opaque type-identification collaborator
(`typeid`/`std::type_info`, external to the repository).  The program
declares `test_exception`; `other id` stands for any other declared
payload type, identified by its index. -/
inductive PayloadType where
  | test_exception
  | other (id : Nat)
deriving DecidableEq, Repr

/-- Modelled from the spec: the address of the unique `std::type_info`
object the C++ runtime emits for each declared type (`&typeid(T)`), the
value recorded in an envelope's `ty` field.  Distinct declared types get
distinct `type_info` objects, hence distinct addresses. -/
def typeinfoAddr : PayloadType → Nat
  | .test_exception => 1
  | .other id => id + 2

/-- Lean denotation of each declared payload type: `test_exception` is
the structure above; other payload types carry an opaque value. -/
def PayloadType.denote : PayloadType → Type
  | .test_exception => UnwindCpp.test_exception
  | .other _ => Nat

/-- The envelope `my_throw<T>` hands to the raise primitive: the freshly
constructed `wrapped_exception<T>` with the cleanup lambda installed. -/
def my_throw_envelope (T : Type) (tag : Nat) (body : T) : wrapped_exception T :=
  install_cleanup (wrapped_exception.mk_cpp T tag body)

/-- The envelope produced when raising a declared payload type `p`:
`my_throw<T>` instantiated at `T = p`, recording `&typeid(p)`. -/
def my_throw_envelopeP (p : PayloadType) (body : p.denote) : wrapped_exception p.denote :=
  my_throw_envelope p.denote (typeinfoAddr p) body

/-- Spec section 6, verbatim reading: the Envelope address is the caught
pointer MINUS a fixed, non-negative, platform-specific byte offset
supplied as configuration.  Stated for comparison with the code's
`my_catch_header_addr`. -/
def spec_envelope_addr (offset : Nat) (caughtExceptions : Int) : Int :=
  caughtExceptions - (offset : Int)

/-- A concrete Envelope used to exercise the layout theorem. -/
def layout_demo_env : wrapped_exception test_exception :=
  my_throw_envelope test_exception 1 (test_exception.mk_cpp "w")

/-- A concrete handler state with `layout_demo_env` at address 2048 and
the caught pointer the runtime would publish for it. -/
def layout_demo_state : MachineState test_exception :=
  { globals := some { caughtExceptions := 1952 }
    heap := [(2048, MemObject.env layout_demo_env)]
    out_ty := 0
    out_caught := 0 }

/-- The Envelope raised in Scenario A: payload `test_exception` built
from the text "You caught me!", tagged with `typeid(test_exception)`. -/
def scenarioA_env : wrapped_exception test_exception :=
  my_throw_envelope test_exception (typeinfoAddr PayloadType.test_exception)
    (test_exception.mk_cpp "You caught me!")

theorem heapLookup_heapErase_self {T : Type} (a : Int) (h : Heap T) :
    heapLookup a (heapErase a h) = none := by
  induction h with
  | nil => rfl
  | cons hd tl ih =>
    obtain ⟨b, o⟩ := hd
    by_cases hba : b = a
    · simpa [heapErase, hba] using ih
    · simp [heapErase, heapLookup, hba, ih]

theorem heapLookup_heapErase_ne {T : Type} (a b : Int) (h : Heap T) (hba : b ≠ a) :
    heapLookup b (heapErase a h) = heapLookup b h := by
  induction h with
  | nil => rfl
  | cons hd tl ih =>
    obtain ⟨c, o⟩ := hd
    by_cases hca : c = a
    · have hcb : ¬ c = b := by
        intro hcb
        exact hba (by rw [← hcb, hca])
      simp [heapErase, heapLookup, hca, hcb, ih, Ne.symm hba]
    · by_cases hcb : c = b
      · simp [heapErase, heapLookup, hca, hcb, hba]
      · simp [heapErase, heapLookup, hca, hcb, ih]

theorem typeinfoAddr_injective : Function.Injective typeinfoAddr := by
  intro p q hpq
  cases p <;> cases q <;> first
    | rfl
    | (simp [typeinfoAddr] at hpq ⊢ <;> omega)

/-- C2, counterexample: no fixed non-negative byte offset exists such
that `my_catch`'s Envelope-address computation subtracts it from the
currently-caught pointer: the code yields an address strictly above the
caught pointer (e.g. at caught pointer 0 it yields 96). -/
theorem my_catch_offset_not_subtracted :
    ¬ ∃ offset : Nat, ∀ p : Int, my_catch_header_addr p = spec_envelope_addr offset p := by
  rintro ⟨offset, h⟩
  have h0 := h 0
  simp [my_catch_header_addr, spec_envelope_addr, sizeof_libcxx_cxa_exception,
    sizeof_Unwind_Exception] at h0
  omega

/-- C2, amended: `my_catch` computes the Envelope's address from the
runtime's currently-caught pointer by ADDING a single fixed,
platform-specific byte offset, namely `sizeof_libcxx_cxa_exception -
sizeof(_Unwind_Exception) = 0x60` bytes (with the `__cxa_exception` size
`0x80` supplied as configuration): `envelope_address = caught_pointer +
offset` for a fixed non-negative offset. -/
theorem my_catch_offset_added :
    (∀ p : Int, my_catch_header_addr p =
        p + ((sizeof_libcxx_cxa_exception - sizeof_Unwind_Exception : Nat) : Int)) ∧
    sizeof_libcxx_cxa_exception - sizeof_Unwind_Exception = 0x60 := by
  constructor
  · intro p
    simp [my_catch_header_addr, sizeof_libcxx_cxa_exception, sizeof_Unwind_Exception]
    omega
  · rfl

/-- C4: `my_throw` never returns normally to its caller.  Either the
raise primitive transfers control (outcome `transferred`), or — for
every failure code the raise primitive may return — `my_throw` prints
the `"Failed to throw (reason = %d)"` diagnostic and calls
`std::terminate()` (outcome `terminated`); the `returned` outcome is
never produced. -/
theorem my_throw_never_returns_normally :
    (∀ (T : Type) (tag : Nat) (body : T) (ginit : Bool) (addr : Int) (heap : Heap T)
        (rr : Option Int),
        my_throw T tag body ginit addr heap rr ≠ ThrowOutcome.returned) ∧
    (∀ (T : Type) (tag : Nat) (body : T) (addr : Int) (heap : Heap T) (reason : Int),
        my_throw T tag body true addr heap (some reason) =
          ThrowOutcome.terminated
            ["Throwing " ++ ptrString addr,
             "Failed to throw (reason = " ++ toString reason ++ ")"]) := by
  constructor
  · intro T tag body ginit addr heap rr
    cases ginit <;> cases rr <;> simp [my_throw]
  · intro T tag body addr heap reason
    simp [my_throw]

/-- C6: every Envelope produced by `my_throw` — the one it places in the
heap and hands to the raise primitive — carries exactly the system's
fixed 64-bit class identifier, and its unwinding header is
zero-initialized except for the class identifier and the
cleanup-routine pointer, both set before the raise primitive is
called. -/
theorem my_throw_produces_marked_envelope :
    ∀ (T : Type) (tag : Nat) (body : T) (addr : Int) (heap : Heap T),
      my_throw T tag body true addr heap none =
        ThrowOutcome.transferred
          ((addr, MemObject.env (my_throw_envelope T tag body)) :: heap)
          (wrapped_exception.header_addr addr)
          ["Throwing " ++ ptrString addr] ∧
      (my_throw_envelope T tag body).base.header.exception_class = my_exception_class ∧
      (my_throw_envelope T tag body).base.header.exception_cleanup_installed = true ∧
      (my_throw_envelope T tag body).base.header.private_1 = 0 ∧
      (my_throw_envelope T tag body).base.header.private_2 = 0 := by
  intro T tag body addr heap
  refine ⟨by simp [my_throw, my_throw_envelope], rfl, rfl, rfl, rfl⟩

/-- C7: the type tags recorded in Envelopes discriminate payload types —
for any two declared payload types, the tags recorded by construction
are equal if and only if the declared static types are equal. -/
theorem type_tags_discriminate :
    ∀ (p q : PayloadType) (b1 : p.denote) (b2 : q.denote),
      (my_throw_envelopeP p b1).base.ty = (my_throw_envelopeP q b2).base.ty ↔ p = q := by
  intro p q b1 b2
  constructor
  · intro h
    exact typeinfoAddr_injective h
  · intro h
    subst h
    rfl

/-- C10: the cleanup routine installed by `my_throw` behaves identically
for every reason code the runtime passes it — it ignores the reason
argument — and unconditionally deallocates the Envelope at the given
address, leaving every other address untouched; its only other
externally visible effect is the single `"Deleting %p"` diagnostic log
line; all of this for every payload type `T`. -/
theorem cleanup_ignores_reason_and_deletes :
    ∀ (T : Type) (r1 r2 excAddr : Int) (heap : Heap T),
      exception_cleanup T r1 excAddr heap = exception_cleanup T r2 excAddr heap ∧
      heapLookup excAddr (exception_cleanup T r1 excAddr heap).1 = none ∧
      (∀ b : Int, b ≠ excAddr →
        heapLookup b (exception_cleanup T r1 excAddr heap).1 = heapLookup b heap) ∧
      (exception_cleanup T r1 excAddr heap).2 = ["Deleting " ++ ptrString excAddr] := by
  intro T r1 r2 excAddr heap
  refine ⟨rfl, heapLookup_heapErase_self excAddr heap, ?_, rfl⟩
  intro b hb
  exact heapLookup_heapErase_ne excAddr b heap hb

/-- C10, witness: the cleanup routine evaluated at a concrete envelope
and two different reason codes. -/
theorem cleanup_ignores_reason_witness :
    exception_cleanup test_exception 0 4096
        [(4096, MemObject.env (my_throw_envelope test_exception 1 (test_exception.mk_cpp "x"))),
         (8192, MemObject.env (my_throw_envelope test_exception 1 (test_exception.mk_cpp "y")))] =
      exception_cleanup test_exception 5 4096
        [(4096, MemObject.env (my_throw_envelope test_exception 1 (test_exception.mk_cpp "x"))),
         (8192, MemObject.env (my_throw_envelope test_exception 1 (test_exception.mk_cpp "y")))] ∧
    (8192 : Int) ≠ 4096 ∧
    heapLookup 8192
        (exception_cleanup test_exception 0 4096
          [(4096, MemObject.env (my_throw_envelope test_exception 1 (test_exception.mk_cpp "x"))),
           (8192, MemObject.env (my_throw_envelope test_exception 1 (test_exception.mk_cpp "y")))]).1 =
      heapLookup 8192
        [(4096, MemObject.env (my_throw_envelope test_exception 1 (test_exception.mk_cpp "x"))),
         (8192, MemObject.env (my_throw_envelope test_exception 1 (test_exception.mk_cpp "y")))] :=
  ⟨(cleanup_ignores_reason_and_deletes test_exception 0 5 4096
      [(4096, MemObject.env (my_throw_envelope test_exception 1 (test_exception.mk_cpp "x"))),
       (8192, MemObject.env (my_throw_envelope test_exception 1 (test_exception.mk_cpp "y")))]).1,
   by decide,
   (cleanup_ignores_reason_and_deletes test_exception 0 5 4096
      [(4096, MemObject.env (my_throw_envelope test_exception 1 (test_exception.mk_cpp "x"))),
       (8192, MemObject.env (my_throw_envelope test_exception 1 (test_exception.mk_cpp "y")))]).2.2.1
     8192 (by decide)⟩

/-- C9: `my_catch` is read-only with respect to all exception state —
it leaves the thread-local bookkeeping handle and the heap (hence every
field of every Envelope) unchanged, writing only the caller's two
out-parameter slots — and calling it again from the state it returns
yields the same state and the same result. -/
theorem my_catch_read_only :
    ∀ (T : Type) (s : MachineState T),
      (my_catch s).1.globals = s.globals ∧
      (my_catch s).1.heap = s.heap ∧
      my_catch (my_catch s).1 = my_catch s := by
  intro T s
  obtain ⟨g, heap, o1, o2⟩ := s
  cases g with
  | none => simp [my_catch]
  | some g =>
    by_cases hc : g.caughtExceptions = 0
    · simp [my_catch, hc]
    · cases hl : heapLookup (my_catch_header_addr g.caughtExceptions) heap with
      | none => simp [my_catch, hc, hl]
      | some obj =>
        by_cases hcl : obj.read_header.exception_class ≠ my_exception_class
        · simp [my_catch, hc, hl, hcl]
        · cases obj with
          | foreign hdr => simp [my_catch, hc, hl, hcl]
          | env e => simp [my_catch, hc, hl, hcl]

/-- C3: an in-flight exception whose header carries a class identifier
different from this system's 64-bit constant is reported not-found:
`my_catch` returns `false` and leaves the whole state — the
out-parameters (so the payload is never exposed), the heap (so the
foreign exception is never deallocated: this system's Cleanup is never
invoked on it) and the bookkeeping handle — unchanged. -/
theorem foreign_class_not_found :
    ∀ (T : Type) (s : MachineState T) (g : EHGlobals) (obj : MemObject T),
      s.globals = some g →
      g.caughtExceptions ≠ 0 →
      heapLookup (my_catch_header_addr g.caughtExceptions) s.heap = some obj →
      obj.read_header.exception_class ≠ my_exception_class →
      my_catch s = (s, CatchResult.ok false) := by
  intro T s g obj hg hc hl hcl
  obtain ⟨g0, heap, o1, o2⟩ := s
  simp only [MachineState.globals] at hg
  subst hg
  simp [my_catch, hc, hl, hcl]

/-- C3, witness: probing while a GNU C++ native exception (class
identifier `0x474E5543432B2B00`, different from this system's constant)
is in flight returns not-found and leaves the state unchanged. -/
theorem foreign_class_not_found_witness :
    ({ globals := some { caughtExceptions := 4000 },
       heap := [(4096, MemObject.foreign
         { exception_class := 0x474E5543432B2B00
           exception_cleanup_installed := false
           private_1 := 0
           private_2 := 0 })],
       out_ty := 0, out_caught := 0 } : MachineState test_exception).globals =
        some { caughtExceptions := 4000 } ∧
    (4000 : Int) ≠ 0 ∧
    my_catch
        ({ globals := some { caughtExceptions := 4000 },
           heap := [(4096, MemObject.foreign
             { exception_class := 0x474E5543432B2B00
               exception_cleanup_installed := false
               private_1 := 0
               private_2 := 0 })],
           out_ty := 0, out_caught := 0 } : MachineState test_exception) =
      ({ globals := some { caughtExceptions := 4000 },
         heap := [(4096, MemObject.foreign
           { exception_class := 0x474E5543432B2B00
             exception_cleanup_installed := false
             private_1 := 0
             private_2 := 0 })],
         out_ty := 0, out_caught := 0 }, CatchResult.ok false) :=
  ⟨rfl, by decide,
   foreign_class_not_found test_exception
     { globals := some { caughtExceptions := 4000 },
       heap := [(4096, MemObject.foreign
         { exception_class := 0x474E5543432B2B00
           exception_cleanup_installed := false
           private_1 := 0
           private_2 := 0 })],
       out_ty := 0, out_caught := 0 }
     { caughtExceptions := 4000 }
     (MemObject.foreign
       { exception_class := 0x474E5543432B2B00
         exception_cleanup_installed := false
         private_1 := 0
         private_2 := 0 })
     rfl (by decide) (by decide) (by decide)⟩

/-- C8: usage errors are fatal precondition violations detected by
assertion, not reported failures.  `my_throw` asserts that the calling
thread's bookkeeping state is initialized before allocating, and
`my_catch` asserts that the bookkeeping handle is non-null and that the
currently-caught pointer is non-null before dereferencing either (each
`assert` fires before the corresponding dereference, so no null pointer
is dereferenced); under the preconditions, no assertion fires. -/
theorem usage_errors_assert :
    (∀ (T : Type) (tag : Nat) (body : T) (addr : Int) (heap : Heap T) (rr : Option Int),
        my_throw T tag body false addr heap rr =
          ThrowOutcome.assert_failed "Initialize cxa globals before throwing.") ∧
    (∀ (T : Type) (tag : Nat) (body : T) (addr : Int) (heap : Heap T) (rr : Option Int)
        (m : String),
        my_throw T tag body true addr heap rr ≠ ThrowOutcome.assert_failed m) ∧
    (∀ (T : Type) (heap : Heap T) (o1 : Nat) (o2 : Int),
        my_catch { globals := none, heap := heap, out_ty := o1, out_caught := o2 } =
          ({ globals := none, heap := heap, out_ty := o1, out_caught := o2 },
           CatchResult.assert_failed "Must call from the catch block (get_globals failed)")) ∧
    (∀ (T : Type) (heap : Heap T) (o1 : Nat) (o2 : Int),
        my_catch { globals := some { caughtExceptions := 0 }, heap := heap,
                   out_ty := o1, out_caught := o2 } =
          ({ globals := some { caughtExceptions := 0 }, heap := heap,
             out_ty := o1, out_caught := o2 },
           CatchResult.assert_failed "Must call from the catch block (no caught exception)")) ∧
    (∀ (T : Type) (s : MachineState T) (g : EHGlobals),
        s.globals = some g → g.caughtExceptions ≠ 0 →
        ∀ m : String, (my_catch s).2 ≠ CatchResult.assert_failed m) := by
  refine ⟨?_, ?_, ?_, ?_, ?_⟩
  · intro T tag body addr heap rr
    simp [my_throw]
  · intro T tag body addr heap rr m
    cases rr <;> simp [my_throw]
  · intro T heap o1 o2
    simp [my_catch]
  · intro T heap o1 o2
    simp [my_catch]
  · intro T s g hg hc m
    obtain ⟨g0, heap, o1, o2⟩ := s
    simp only [MachineState.globals] at hg
    subst hg
    cases hl : heapLookup (my_catch_header_addr g.caughtExceptions) heap with
    | none => simp [my_catch, hc, hl]
    | some obj =>
      by_cases hcl : obj.read_header.exception_class ≠ my_exception_class
      · simp [my_catch, hc, hl, hcl]
      · cases obj with
        | foreign hdr => simp [my_catch, hc, hl, hcl]
        | env e => simp [my_catch, hc, hl, hcl]

/-- C8, witness: each assertion evaluated at a concrete state — an
uninitialized thread for `my_throw` and `my_catch`, a null caught
pointer, and an initialized state with a caught exception where no
assertion fires. -/
theorem usage_errors_assert_witness :
    my_throw test_exception 1 (test_exception.mk_cpp "x") false 4096 [] none =
      ThrowOutcome.assert_failed "Initialize cxa globals before throwing." ∧
    my_catch ({ globals := none, heap := [], out_ty := 0, out_caught := 0 } :
        MachineState test_exception) =
      ({ globals := none, heap := [], out_ty := 0, out_caught := 0 },
       CatchResult.assert_failed "Must call from the catch block (get_globals failed)") ∧
    my_catch ({ globals := some { caughtExceptions := 0 }, heap := [],
                out_ty := 0, out_caught := 0 } : MachineState test_exception) =
      ({ globals := some { caughtExceptions := 0 }, heap := [],
         out_ty := 0, out_caught := 0 },
       CatchResult.assert_failed "Must call from the catch block (no caught exception)") ∧
    (({ globals := some { caughtExceptions := 4000 }, heap := [],
        out_ty := 0, out_caught := 0 } : MachineState test_exception).globals =
      some { caughtExceptions := 4000 } ∧
     (4000 : Int) ≠ 0 ∧
     (my_catch ({ globals := some { caughtExceptions := 4000 }, heap := [],
                  out_ty := 0, out_caught := 0 } : MachineState test_exception)).2 ≠
       CatchResult.assert_failed "Must call from the catch block (no caught exception)") :=
  ⟨usage_errors_assert.1 test_exception 1 (test_exception.mk_cpp "x") 4096 [] none,
   usage_errors_assert.2.2.1 test_exception [] 0 0,
   usage_errors_assert.2.2.2.1 test_exception [] 0 0,
   rfl, by decide,
   usage_errors_assert.2.2.2.2 test_exception
     { globals := some { caughtExceptions := 4000 }, heap := [], out_ty := 0, out_caught := 0 }
     { caughtExceptions := 4000 } rfl (by decide)
     "Must call from the catch block (no caught exception)"⟩

/-- C5: for every Envelope, the Envelope's address equals its embedded
unwinding header's address (the header is the first field of the first,
only base class, both at byte offset 0), so header pointers and
envelope pointers are interchangeable: the cast `my_catch` performs
recovers the original Envelope — it returns the header address as the
`base_exception*` out-parameter, and the heap object at that very
address is the Envelope — and the cleanup routine's cast deallocates the
Envelope given only its header's address. -/
theorem header_first_layout_interchangeable :
    (∀ envAddr : Int, wrapped_exception.header_addr envAddr = envAddr) ∧
    (∀ (T : Type) (s : MachineState T) (g : EHGlobals) (e : wrapped_exception T),
        s.globals = some g → g.caughtExceptions ≠ 0 →
        heapLookup (my_catch_header_addr g.caughtExceptions) s.heap =
          some (MemObject.env e) →
        e.base.header.exception_class = my_exception_class →
        my_catch s =
          ({ s with out_ty := e.base.ty,
                    out_caught := my_catch_header_addr g.caughtExceptions },
           CatchResult.ok true)) ∧
    (∀ (T : Type) (reason hdrAddr : Int) (heap : Heap T) (e : wrapped_exception T),
        heapLookup hdrAddr heap = some (MemObject.env e) →
        heapLookup hdrAddr (exception_cleanup T reason hdrAddr heap).1 = none) := by
  refine ⟨?_, ?_, ?_⟩
  · intro envAddr
    simp [wrapped_exception.header_addr, wrapped_exception.base_offset,
      base_exception.header_offset]
  · intro T s g e hg hc hl hcl
    obtain ⟨g0, heap, o1, o2⟩ := s
    simp only [MachineState.globals] at hg
    subst hg
    simp [my_catch, hc, hl, MemObject.read_header, hcl]
  · intro T reason hdrAddr heap e hl
    exact heapLookup_heapErase_self hdrAddr heap

/-- C5, witness: the layout and both casts evaluated on a concrete
Envelope at address 2048 (whose caught pointer is 2048 - 96 = 1952). -/
theorem header_first_layout_witness :
    wrapped_exception.header_addr 2048 = 2048 ∧
    (layout_demo_state.globals = some { caughtExceptions := 1952 } ∧
     (1952 : Int) ≠ 0 ∧
     my_catch layout_demo_state =
       ({ layout_demo_state with
           out_ty := layout_demo_env.base.ty,
           out_caught := my_catch_header_addr 1952 },
        CatchResult.ok true)) ∧
    heapLookup 2048
        (exception_cleanup test_exception 1 2048
          [(2048, MemObject.env layout_demo_env)]).1 = none :=
  ⟨header_first_layout_interchangeable.1 2048,
   ⟨rfl, by decide,
    header_first_layout_interchangeable.2.1 test_exception layout_demo_state
      { caughtExceptions := 1952 } layout_demo_env rfl (by decide) (by decide) rfl⟩,
   header_first_layout_interchangeable.2.2 test_exception 1 2048
     [(2048, MemObject.env layout_demo_env)] layout_demo_env (by decide)⟩

/-- C1: round-trip — for any payload type `T` and constructor arguments
`a`, raising via `my_throw<T>(a)` (on an initialized thread, at any
fresh address the allocator picks, except the one address whose
published caught pointer would be null) and then calling `my_catch` in
the first enclosing handler succeeds: `my_throw` transfers control with
the envelope in the heap, `my_catch` returns `true`, writes the type
tag of `T` and the envelope's address to the out-parameters, and the
envelope's payload is exactly a `T` constructed directly from `a`. -/
theorem round_trip_my_throw_my_catch :
    ∀ (T A : Type) (mk : A → T) (a : A) (tag : Nat) (heap : Heap T) (addr : Int)
      (o1 : Nat) (o2 : Int),
      addr ≠ 96 →
      (my_throw T tag (mk a) true addr heap none =
        ThrowOutcome.transferred
          ((addr, MemObject.env (my_throw_envelope T tag (mk a))) :: heap)
          addr ["Throwing " ++ ptrString addr] ∧
       my_catch
         ({ globals := some (runtime_begin_catch addr)
            heap := (addr, MemObject.env (my_throw_envelope T tag (mk a))) :: heap
            out_ty := o1
            out_caught := o2 } : MachineState T) =
         (({ globals := some (runtime_begin_catch addr)
             heap := (addr, MemObject.env (my_throw_envelope T tag (mk a))) :: heap
             out_ty := tag
             out_caught := addr } : MachineState T), CatchResult.ok true) ∧
       (my_throw_envelope T tag (mk a)).body = mk a) := by
  intro T A mk a tag heap addr o1 o2 haddr
  have hc : (runtime_begin_catch addr).caughtExceptions = addr - 96 := by
    simp [runtime_begin_catch, sizeof_Unwind_Exception, sizeof_libcxx_cxa_exception]
    omega
  have hnz : ¬ (runtime_begin_catch addr).caughtExceptions = 0 := by
    rw [hc]
    omega
  have hhdr : my_catch_header_addr (runtime_begin_catch addr).caughtExceptions = addr := by
    rw [hc]
    simp [my_catch_header_addr, sizeof_Unwind_Exception, sizeof_libcxx_cxa_exception]
    omega
  refine ⟨?_, ?_, rfl⟩
  · simp [my_throw, my_throw_envelope, wrapped_exception.header_addr,
      wrapped_exception.base_offset, base_exception.header_offset]
  · simp [my_catch, hnz, hhdr, heapLookup, MemObject.read_header, my_throw_envelope,
      install_cleanup, wrapped_exception.mk_cpp]

/-- C1, witness (Scenario A): raising a `test_exception` carrying
"You caught me!" at address 4096 and probing in the enclosing handler
yields found, the matching tag, the envelope's address, and a payload
whose text equals "You caught me!". -/
theorem round_trip_scenarioA_witness :
    (4096 : Int) ≠ 96 ∧
    (my_throw test_exception (typeinfoAddr PayloadType.test_exception)
        (test_exception.mk_cpp "You caught me!") true 4096 [] none =
      ThrowOutcome.transferred [(4096, MemObject.env scenarioA_env)] 4096
        ["Throwing " ++ ptrString 4096] ∧
     my_catch
       ({ globals := some (runtime_begin_catch 4096)
          heap := [(4096, MemObject.env scenarioA_env)]
          out_ty := 0
          out_caught := 0 } : MachineState test_exception) =
       (({ globals := some (runtime_begin_catch 4096)
           heap := [(4096, MemObject.env scenarioA_env)]
           out_ty := typeinfoAddr PayloadType.test_exception
           out_caught := 4096 } : MachineState test_exception), CatchResult.ok true) ∧
     scenarioA_env.body = test_exception.mk_cpp "You caught me!") ∧
    scenarioA_env.body.what = "You caught me!" :=
  ⟨by decide,
   round_trip_my_throw_my_catch test_exception String test_exception.mk_cpp
     "You caught me!" (typeinfoAddr PayloadType.test_exception) [] 4096 0 0 (by decide),
   rfl⟩

end UnwindCpp
